import Mathlib

/-!
Verification development for the action-prediction pipeline in `model.py`
(`ActionPredictor.predict`, `_mock_predict`, `_real_predict`, `_parse_response`)
together with the data shapes of `schema.py`.

Modelling conventions:
- Python `PredictionResponse` (pydantic) is the structure `PredictionResponse` below.
- Python exceptions are the inductive `PyExc`; a function that may raise returns
  `Except PyExc _`.  A `try/except (A, B)` block becomes a `match` that recovers
  exactly the listed exception classes and re-raises the rest.
- Python floats are modelled as `Rat`.  No rounding is relevant to any claim:
  the pipeline only parses, stores and compares these values.  Rational values
  are always built with `mkRat` over integer arithmetic so that they evaluate.
- `json.loads` is modelled by `jsonLoads`, a fuel-indexed recursive-descent
  parser over the JSON grammar (the fuel is always sufficient: every recursive
  call either consumes a character or alternates between the value/list modes,
  and the fuel is twice the input length plus a constant).
- The regex search `re.search(r'\x7b[^\x7b\x7d]*\x7d', response)` of
  `_parse_response` is modelled by `findJson`: the leftmost occurrence of a
  brace-delimited span containing no further braces.
- `random.choice` / `random.randint` / `random.uniform` draws are passed to
  `mockPredict` explicitly in a `MockDraw` record; distributional facts about
  the draws become hypotheses of the theorems.
- The external collaborators of `_real_predict` (PIL image decode/encode, the
  mlx-vlm `generate` call, the temp-file name chosen by `tempfile.mkstemp`) are
  an `Env` record of per-request outcomes; the file system is a list of paths
  threaded through `realPredict`.
-/

namespace ActionPack

/-- Exception classes that can arise in the pipeline: `ValueError` (raised for
"No JSON object found" and by failed `int()`/`float()` string conversions),
`TypeError` (raised by `int()`/`float()` on `None`, lists or dicts),
`json.JSONDecodeError`, attribute errors, and failures of the external image
and generation collaborators. -/
inductive PyExc where
  | valueError
  | typeError
  | jsonDecodeError
  | attributeError
  | imageError
  | generationError
deriving DecidableEq, Repr

/-- JSON values as produced by `json.loads`: null, booleans, numbers, strings,
arrays and objects (an object is the key/value list in source order; lookups
take the last binding, as a Python dict built from duplicate keys would). -/
inductive JVal where
  | jnull
  | jbool (b : Bool)
  | jnum (q : Rat)
  | jstr (s : String)
  | jarr (xs : List JVal)
  | jobj (kvs : List (String × JVal))

/-- Embedding of the pydantic model `PredictionResponse` of `schema.py`:
`action_type`, optional `x`, `y`, optional `text`, and `confidence`. -/
structure PredictionResponse where
  action_type : String
  x : Option Int
  y : Option Int
  text : Option String
  confidence : Rat
deriving DecidableEq, Repr

/-- JSON whitespace characters. -/
def isWsChar (c : Char) : Bool :=
  c = ' ' || c = '\t' || c = '\n' || c = '\r'

/-- Drop leading whitespace. -/
def skipWs : List Char → List Char
  | [] => []
  | c :: rest => if isWsChar c then skipWs rest else c :: rest

/-- Drop leading and trailing whitespace (used by `int()`/`float()` on strings). -/
def trimWs (l : List Char) : List Char :=
  ((skipWs ((skipWs l).reverse)).reverse)

/-- Value of a hexadecimal digit. -/
def hexVal (c : Char) : Option Nat :=
  if c.isDigit then some (c.toNat - 48)
  else if 'a' ≤ c && c ≤ 'f' then some (c.toNat - 87)
  else if 'A' ≤ c && c ≤ 'F' then some (c.toNat - 55)
  else none

/-- Read a JSON string body after the opening quote; returns the decoded
characters and the input after the closing quote. -/
def parseStringLit : List Char → Option (List Char × List Char)
  | [] => none
  | '"' :: rest => some ([], rest)
  | '\\' :: '"' :: rest => (parseStringLit rest).map (fun p => ('"' :: p.1, p.2))
  | '\\' :: '\\' :: rest => (parseStringLit rest).map (fun p => ('\\' :: p.1, p.2))
  | '\\' :: '/' :: rest => (parseStringLit rest).map (fun p => ('/' :: p.1, p.2))
  | '\\' :: 'b' :: rest => (parseStringLit rest).map (fun p => (Char.ofNat 8 :: p.1, p.2))
  | '\\' :: 'f' :: rest => (parseStringLit rest).map (fun p => (Char.ofNat 12 :: p.1, p.2))
  | '\\' :: 'n' :: rest => (parseStringLit rest).map (fun p => ('\n' :: p.1, p.2))
  | '\\' :: 'r' :: rest => (parseStringLit rest).map (fun p => ('\r' :: p.1, p.2))
  | '\\' :: 't' :: rest => (parseStringLit rest).map (fun p => ('\t' :: p.1, p.2))
  | '\\' :: 'u' :: a :: b :: c :: d :: rest =>
    match hexVal a, hexVal b, hexVal c, hexVal d with
    | some ha, some hb, some hc, some hd =>
      (parseStringLit rest).map
        (fun p => (Char.ofNat (((ha * 16 + hb) * 16 + hc) * 16 + hd) :: p.1, p.2))
    | _, _, _, _ => none
  | '\\' :: _ => none
  | c :: rest => (parseStringLit rest).map (fun p => (c :: p.1, p.2))

/-- Read a maximal run of decimal digits, returning value, digit count and rest. -/
def readDigits : List Char → Nat → Nat → Nat × Nat × List Char
  | c :: rest, acc, n =>
    if c.isDigit then readDigits rest (acc * 10 + (c.toNat - 48)) (n + 1) else (acc, n, c :: rest)
  | [], acc, n => (acc, n, [])

/-- Assemble a decimal literal: sign, integer part, fraction digits and a signed
power-of-ten exponent, as a rational.  Built with `mkRat` so it evaluates. -/
def decimalValue (sign : Int) (ip fp nf : Nat) (e : Int) : Rat :=
  if 0 ≤ e then mkRat (sign * (((ip * 10 ^ nf + fp) * 10 ^ e.toNat : Nat) : Int)) (10 ^ nf)
  else mkRat (sign * ((ip * 10 ^ nf + fp : Nat) : Int)) (10 ^ nf * 10 ^ (-e).toNat)

/-- Read an optional exponent suffix `e`/`E` with optional sign.  Returns the
signed exponent and the rest, or `none` when the suffix is malformed. -/
def readExponent (l : List Char) : Option (Int × List Char) :=
  match l with
  | 'e' :: r =>
    let sr : Int × List Char := match r with
      | '+' :: rr => (1, rr)
      | '-' :: rr => (-1, rr)
      | _ => (1, r)
    let (ev, ne, r2) := readDigits sr.2 0 0
    if ne = 0 then none else some (sr.1 * (ev : Int), r2)
  | 'E' :: r =>
    let sr : Int × List Char := match r with
      | '+' :: rr => (1, rr)
      | '-' :: rr => (-1, rr)
      | _ => (1, r)
    let (ev, ne, r2) := readDigits sr.2 0 0
    if ne = 0 then none else some (sr.1 * (ev : Int), r2)
  | _ => some (0, l)

/-- Read a JSON number: optional minus, integer part, optional fraction
(requiring at least one digit), optional exponent. -/
def parseJNumber (l : List Char) : Option (Rat × List Char) :=
  let sl : Int × List Char := match l with
    | '-' :: r => (-1, r)
    | _ => (1, l)
  let (ip, ni, l2) := readDigits sl.2 0 0
  if ni = 0 then none else
  let fr : Option (Nat × Nat × List Char) := match l2 with
    | '.' :: r =>
      let (fp, nf, l3) := readDigits r 0 0
      if nf = 0 then none else some (fp, nf, l3)
    | _ => some (0, 0, l2)
  match fr with
  | none => none
  | some (fp, nf, l3) =>
    match readExponent l3 with
    | none => none
    | some (e, l4) => some (decimalValue sl.1 ip fp nf e, l4)

/-- Mode of the JSON parser: a single value, the items of an array after the
opening bracket, or the members of an object after the opening brace. -/
inductive PMode where
  | value
  | items
  | members

/-- Intermediate result of the JSON parser, one constructor per mode. -/
inductive PRes where
  | val (v : JVal)
  | arrItems (xs : List JVal)
  | objMembers (kvs : List (String × JVal))

/-- Recursive-descent JSON parser.  The fuel only bounds recursion depth; it is
always sufficient for the inputs `jsonLoads` passes in. -/
def parseF : Nat → PMode → List Char → Option (PRes × List Char)
  | 0, _, _ => none
  | Nat.succ fuel, PMode.value, l =>
    match skipWs l with
    | '"' :: rest => (parseStringLit rest).map (fun p => (PRes.val (JVal.jstr (String.mk p.1)), p.2))
    | 't' :: 'r' :: 'u' :: 'e' :: rest => some (PRes.val (JVal.jbool true), rest)
    | 'f' :: 'a' :: 'l' :: 's' :: 'e' :: rest => some (PRes.val (JVal.jbool false), rest)
    | 'n' :: 'u' :: 'l' :: 'l' :: rest => some (PRes.val JVal.jnull, rest)
    | '[' :: rest =>
      (match skipWs rest with
       | ']' :: r2 => some (PRes.val (JVal.jarr []), r2)
       | _ =>
         match parseF fuel PMode.items rest with
         | some (PRes.arrItems xs, r2) => some (PRes.val (JVal.jarr xs), r2)
         | _ => none)
    | '\x7b' :: rest =>
      (match skipWs rest with
       | '\x7d' :: r2 => some (PRes.val (JVal.jobj []), r2)
       | _ =>
         match parseF fuel PMode.members rest with
         | some (PRes.objMembers kvs, r2) => some (PRes.val (JVal.jobj kvs), r2)
         | _ => none)
    | l2 => (parseJNumber l2).map (fun p => (PRes.val (JVal.jnum p.1), p.2))
  | Nat.succ fuel, PMode.items, l =>
    match parseF fuel PMode.value l with
    | some (PRes.val v, rest) =>
      (match skipWs rest with
       | ',' :: r2 =>
         (match parseF fuel PMode.items r2 with
          | some (PRes.arrItems xs, r3) => some (PRes.arrItems (v :: xs), r3)
          | _ => none)
       | ']' :: r2 => some (PRes.arrItems [v], r2)
       | _ => none)
    | _ => none
  | Nat.succ fuel, PMode.members, l =>
    match skipWs l with
    | '"' :: rest =>
      (match parseStringLit rest with
       | none => none
       | some (key, r2) =>
         match skipWs r2 with
         | ':' :: r3 =>
           (match parseF fuel PMode.value r3 with
            | some (PRes.val v, r4) =>
              (match skipWs r4 with
               | ',' :: r5 =>
                 (match parseF fuel PMode.members r5 with
                  | some (PRes.objMembers kvs, r6) =>
                    some (PRes.objMembers ((String.mk key, v) :: kvs), r6)
                  | _ => none)
               | '\x7d' :: r5 => some (PRes.objMembers [(String.mk key, v)], r5)
               | _ => none)
            | _ => none)
         | _ => none)
    | _ => none

/-- Embedding of `json.loads`: parse one JSON value and require that only
whitespace follows; any failure is a `json.JSONDecodeError`. -/
def jsonLoads (s : String) : Except PyExc JVal :=
  match parseF (2 * s.data.length + 8) PMode.value s.data with
  | some (PRes.val v, rest) =>
    if (skipWs rest).isEmpty then Except.ok v else Except.error PyExc.jsonDecodeError
  | _ => Except.error PyExc.jsonDecodeError

/-- Last-binding lookup in a parsed JSON object, as a Python dict built from
duplicate keys would behave; this is the model of `parsed.get(key)`. -/
def jget (kvs : List (String × JVal)) (k : String) : Option JVal :=
  (kvs.reverse.find? (fun p => p.1 == k)).map (fun p => p.2)

/-- Python equality of a JSON value against a string literal: true exactly when
the value is that string (numbers, booleans, null, containers never equal a
string).  This is the model of `action_type == "click"`. -/
def jeqStr : JVal → String → Bool
  | JVal.jstr s, t => s == t
  | _, _ => false

/-- Model of `int(string)`: optional surrounding whitespace, optional sign, a
nonempty digit run, nothing else; otherwise `ValueError`. -/
def intOfString (s : String) : Option Int :=
  let l := trimWs s.data
  let sl : Int × List Char := match l with
    | '+' :: r => (1, r)
    | '-' :: r => (-1, r)
    | _ => (1, l)
  let (v, n, rest) := readDigits sl.2 0 0
  if n = 0 then none else if rest.isEmpty then some (sl.1 * (v : Int)) else none

/-- Model of `float(string)`: optional surrounding whitespace, optional sign,
digits with an optional point and an optional exponent, at least one mantissa
digit; otherwise `ValueError`.  (The special spellings `inf`/`nan` are not
modelled; no number reaching a claim uses them.) -/
def floatOfString (s : String) : Option Rat :=
  let l := trimWs s.data
  let sl : Int × List Char := match l with
    | '+' :: r => (1, r)
    | '-' :: r => (-1, r)
    | _ => (1, l)
  let (ip, ni, l2) := readDigits sl.2 0 0
  let fr : Nat × Nat × List Char := match l2 with
    | '.' :: r => readDigits r 0 0
    | _ => (0, 0, l2)
  if ni + fr.2.1 = 0 then none
  else
    match readExponent fr.2.2 with
    | none => none
    | some (e, l4) => if l4.isEmpty then some (decimalValue sl.1 ip fr.1 fr.2.1 e) else none

/-- Truncation toward zero, the behaviour of Python `int()` on a float. -/
def ratTrunc (q : Rat) : Int :=
  if q < 0 then -((-q).floor) else q.floor

/-- Model of Python `int(v)` on a parsed JSON value: numbers truncate toward
zero, booleans become 0/1, strings are parsed (`ValueError` on failure), and
`None`, lists and dicts raise `TypeError`. -/
def pyInt : JVal → Except PyExc Int
  | JVal.jnum q => Except.ok (ratTrunc q)
  | JVal.jbool b => Except.ok (if b then 1 else 0)
  | JVal.jstr s =>
    match intOfString s with
    | some n => Except.ok n
    | none => Except.error PyExc.valueError
  | _ => Except.error PyExc.typeError

/-- Model of Python `float(v)` on a parsed JSON value: numbers pass through,
booleans become 0/1, strings are parsed (`ValueError` on failure), and `None`,
lists and dicts raise `TypeError`. -/
def pyFloat : JVal → Except PyExc Rat
  | JVal.jnum q => Except.ok q
  | JVal.jbool b => Except.ok (if b then 1 else 0)
  | JVal.jstr s =>
    match floatOfString s with
    | some q => Except.ok q
    | none => Except.error PyExc.valueError
  | _ => Except.error PyExc.typeError

/-- Rendering of a number by `str()`; integral values match Python exactly, and
non-integral values are abstracted (no claim exercises them). -/
def ratRepr (q : Rat) : String :=
  if q.den = 1 then toString q.num else toString q.num ++ "/" ++ toString q.den

/-- Model of Python `str(v)` on a parsed JSON value.  Container renderings are
abstracted placeholders: `str()` is total on them and no claim inspects the
exact text. -/
def pyStr : JVal → String
  | JVal.jnull => "None"
  | JVal.jbool true => "True"
  | JVal.jbool false => "False"
  | JVal.jnum q => ratRepr q
  | JVal.jstr s => s
  | JVal.jarr _ => "<list>"
  | JVal.jobj _ => "<dict>"

/-- Scan for the closing brace of a candidate match of the regular expression
used by `_parse_response`: collect characters until the first brace; succeed
with the collected span when that brace closes, fail when it opens. -/
def scanFlat : List Char → Option (List Char)
  | [] => none
  | c :: rest =>
    if c = '\x7d' then some []
    else if c = '\x7b' then none
    else (scanFlat rest).map (fun mid => c :: mid)

/-- Model of `re.search` for the pattern matching a brace-delimited span with
no inner braces: the leftmost such span, inclusive of its braces. -/
def findJson : List Char → Option (List Char)
  | [] => none
  | c :: rest =>
    if c = '\x7b' then
      match scanFlat rest with
      | some mid => some ('\x7b' :: (mid ++ ['\x7d']))
      | none => findJson rest
    else findJson rest

/-- The low-confidence fallback literal that `_parse_response` and
`_real_predict` both construct: action type "none", the input cursor position,
no text, confidence 0.0. -/
def fallbackResponse (cx cy : Int) : PredictionResponse :=
  { action_type := "none", x := some cx, y := some cy, text := none, confidence := 0 }

/-- The expression `float(parsed.get("confidence", 0.5))`: the default 0.5 for
an absent field, otherwise the float coercion of the present value. -/
def confCoerce (kvs : List (String × JVal)) : Except PyExc Rat :=
  match jget kvs "confidence" with
  | none => Except.ok (mkRat 1 2)
  | some v => pyFloat v

/-- The expression `int(parsed.get(key, cursor))`: the cursor coordinate for an
absent field (`int` on an int is the identity), otherwise the int coercion of
the present value. -/
def coordCoerce (kvs : List (String × JVal)) (k : String) (cursor : Int) : Except PyExc Int :=
  match jget kvs k with
  | none => Except.ok cursor
  | some v => pyInt v

/-- Dispatch on the parsed JSON object, lines 210-236 of `model.py`: read
`action_type` (default "none") and coerce `confidence` (default 0.5) before
dispatching; on "click" coerce `x`/`y` with the cursor as the default for
absent fields; on "text" stringify `text` (default ""); otherwise produce the
"none" response with confidence forced to 0.0. -/
def dispatchObj (kvs : List (String × JVal)) (cx cy : Int) : Except PyExc PredictionResponse :=
  match confCoerce kvs with
  | Except.error e => Except.error e
  | Except.ok conf =>
    if jeqStr ((jget kvs "action_type").getD (JVal.jstr "none")) "click" then
      match coordCoerce kvs "x" cx with
      | Except.error e => Except.error e
      | Except.ok xv =>
        match coordCoerce kvs "y" cy with
        | Except.error e => Except.error e
        | Except.ok yv =>
          Except.ok { action_type := "click", x := some xv, y := some yv,
                      text := none, confidence := conf }
    else if jeqStr ((jget kvs "action_type").getD (JVal.jstr "none")) "text" then
      Except.ok { action_type := "text", x := some cx, y := some cy,
                  text := some ((jget kvs "text").elim "" pyStr), confidence := conf }
    else
      Except.ok { action_type := "none", x := some cx, y := some cy,
                  text := none, confidence := 0 }

/-- Processing of the extracted brace span: `json.loads` it and dispatch.  The
non-object case is unreachable for spans produced by `findJson` (they start
with a brace) and is modelled as the `AttributeError` that `parsed.get` would
raise. -/
def parseExtracted (s : String) (cx cy : Int) : Except PyExc PredictionResponse :=
  match jsonLoads s with
  | Except.error e => Except.error e
  | Except.ok (JVal.jobj kvs) => dispatchObj kvs cx cy
  | Except.ok _ => Except.error PyExc.attributeError

/-- Body of the `try` block of `_parse_response`: find the brace span (raising
`ValueError` "No JSON object found" when absent), then load and dispatch. -/
def parseResponseInner (response : String) (cx cy : Int) : Except PyExc PredictionResponse :=
  match findJson response.data with
  | none => Except.error PyExc.valueError
  | some s => parseExtracted (String.mk s) cx cy

/-- The whole of `_parse_response`: its `except (json.JSONDecodeError,
ValueError)` clause converts exactly those two classes to the fallback
response; any other exception (for example `TypeError`) propagates. -/
def parseResponse (response : String) (cx cy : Int) : Except PyExc PredictionResponse :=
  match parseResponseInner response cx cy with
  | Except.ok r => Except.ok r
  | Except.error PyExc.jsonDecodeError => Except.ok (fallbackResponse cx cy)
  | Except.error PyExc.valueError => Except.ok (fallbackResponse cx cy)
  | Except.error e => Except.error e

/-- The fixed phrase set of mock text predictions, lines 20-26 of `model.py`. -/
def MOCK_TEXT_PREDICTIONS : List String :=
  ["Hello, world!",
   "Thank you for your message.",
   "Sounds good!",
   "npm install",
   "git commit -m \x27update\x27"]

/-- The list passed to `random.choice` in `_mock_predict`; three of its four
entries are "click". -/
def MOCK_ACTION_CHOICES : List String := ["click", "text", "click", "click"]

/-- One call's worth of randomness for `_mock_predict`: the `random.choice`
index, the two `random.randint(-150, 150)` offsets, the two `random.uniform`
confidences and the `random.choice` index into the phrase set.  Range facts
about the draws are hypotheses of the theorems. -/
structure MockDraw where
  choice : Fin MOCK_ACTION_CHOICES.length
  offsetX : Int
  offsetY : Int
  clickConf : Rat
  textIdx : Fin MOCK_TEXT_PREDICTIONS.length
  textConf : Rat

/-- Embedding of `_mock_predict`: choose "click" or "text"; clicks offset the
cursor and clamp at zero, texts keep the cursor position and pick a phrase. -/
def mockPredict (cx cy : Int) (d : MockDraw) : PredictionResponse :=
  if MOCK_ACTION_CHOICES.get d.choice = "click" then
    { action_type := "click", x := some (max 0 (cx + d.offsetX)),
      y := some (max 0 (cy + d.offsetY)), text := none, confidence := d.clickConf }
  else
    { action_type := "text", x := some cx, y := some cy,
      text := some (MOCK_TEXT_PREDICTIONS.get d.textIdx), confidence := d.textConf }

/-- Rendering of the history context: the last five entries joined with ", ",
or the literal "none" for an empty history. -/
def historyRender (history : List String) : String :=
  if history.isEmpty then "none"
  else String.intercalate ", " (history.drop (history.length - 5))

/-- Embedding of the prompt construction of `_real_predict`: the module's
template with the cursor position and rendered history substituted. -/
def buildPrompt (cx cy : Int) (history : List String) : String :=
  "You are an AI assistant that predicts the user\x27s next action on their desktop.\n\nLooking at this screenshot, the cursor is at position (" ++
    toString cx ++ ", " ++ toString cy ++
    ").\n\nRecent actions: " ++ historyRender history ++
    "\n\nPredict the SINGLE most likely next action:\n- If the cursor is in/near a text field, search bar, terminal, or code editor: predict TEXT to type\n- If the cursor is over a button, link, or clickable UI element: predict a CLICK\n\nRespond with ONLY a JSON object:\n- For text: \x7b\"action_type\": \"text\", \"text\": \"<text to type>\", \"confidence\": <0.0-1.0>\x7d\n- For click: \x7b\"action_type\": \"click\", \"x\": <number>, \"y\": <number>, \"confidence\": <0.0-1.0>\x7d\n\nJSON response:"

/-- Per-request outcomes of the external collaborators of `_real_predict`:
the PIL decode of the request bytes, the unique temp path from
`tempfile.mkstemp`, the PNG encode to that path, and the mlx-vlm generation
call (a function of the image path and the prompt, returning the output text
after the attribute probing of lines 161-169, which always yields a string). -/
structure Env where
  openImage : List UInt8 → Except PyExc Unit
  tempPath : String
  saveImage : Except PyExc Unit
  generate : String → String → Except PyExc String

/-- Embedding of `_real_predict` with the file system as a list of paths:
decode the image, create and write the temp file, build the prompt, generate,
parse; the `except Exception` clause turns every escaped exception into the
fallback response, and the `finally` clause removes the temp file on every
path on which it was created. -/
def realPredict (env : Env) (fs : List String) (img : List UInt8) (history : List String)
    (cx cy : Int) : PredictionResponse × List String :=
  match env.openImage img with
  | Except.error _ => (fallbackResponse cx cy, fs)
  | Except.ok _ =>
    let fs1 := env.tempPath :: fs
    match env.saveImage with
    | Except.error _ => (fallbackResponse cx cy, fs1.erase env.tempPath)
    | Except.ok _ =>
      match env.generate env.tempPath (buildPrompt cx cy history) with
      | Except.error _ => (fallbackResponse cx cy, fs1.erase env.tempPath)
      | Except.ok output =>
        match parseResponse output cx cy with
        | Except.ok r => (r, fs1.erase env.tempPath)
        | Except.error _ => (fallbackResponse cx cy, fs1.erase env.tempPath)

/-- Backend state of the predictor, set once at construction: no model path
given, a path whose load failed, or a loaded model.  The first two leave
`self.model` as `None`. -/
inductive BackendState where
  | unconfigured
  | loadFailed
  | ready
deriving DecidableEq, Repr

/-- Whether `self.model is None` is false, the sole dispatch condition of
`predict`. -/
def BackendState.hasModel : BackendState → Bool
  | BackendState.ready => true
  | _ => false

/-- Embedding of `ActionPredictor.__init__` and `_load_model`: no path means
unconfigured; with a path, the load outcome decides between ready and
load-failed (the latter clears the model and falls back to mock mode). -/
def initBackend (modelPath : Option String) (loadResult : Except PyExc Unit) : BackendState :=
  match modelPath with
  | none => BackendState.unconfigured
  | some _ =>
    match loadResult with
    | Except.ok _ => BackendState.ready
    | Except.error _ => BackendState.loadFailed

/-- Embedding of `ActionPredictor.predict`: dispatch on `self.model is None`
to the mock generator (which sees only the cursor) or the real pipeline. -/
def predict (st : BackendState) (env : Env) (fs : List String) (d : MockDraw)
    (img : List UInt8) (history : List String) (cx cy : Int) :
    PredictionResponse × List String :=
  if st.hasModel then realPredict env fs img history cx cy
  else (mockPredict cx cy d, fs)

/-- Specification-side predicate, following the words of the spec rather than
the code: a span of characters containing no brace. -/
def NoBraces (mid : List Char) : Prop :=
  ∀ c ∈ mid, c ≠ '\x7b' ∧ c ≠ '\x7d'

/-- Specification-side predicate, following the words of the spec rather than
the code: the text contains a brace-delimited substring with no nested braces.
This is what the regular expression of `_parse_response` is claimed to find;
`findJson` is proved against it. -/
def HasFlat (l : List Char) : Prop :=
  ∃ pre mid post, NoBraces mid ∧ l = pre ++ '\x7b' :: (mid ++ '\x7d' :: post)

/-- Environment whose external stages all succeed and whose generation call
returns the given output text; used to drive concrete pipeline runs. -/
def envWith (out : String) : Env :=
  { openImage := fun _ => Except.ok (), tempPath := "/tmp/shot.png",
    saveImage := Except.ok (), generate := fun _ _ => Except.ok out }

/-- Environment whose image decode fails; used to exercise the failure path. -/
def envFailImg : Env :=
  { openImage := fun _ => Except.error PyExc.imageError, tempPath := "/tmp/shot.png",
    saveImage := Except.ok (), generate := fun _ _ => Except.ok "" }

/-- A fixed draw of mock randomness for concrete runs. -/
def d0 : MockDraw :=
  { choice := ⟨0, by decide⟩, offsetX := 0, offsetY := 0, clickConf := mkRat 1 2,
    textIdx := ⟨0, by decide⟩, textConf := mkRat 1 2 }


/-- Soundness of the closing-brace scan: a successful scan returns a brace-free
span, and the input is that span followed by a closing brace. -/
theorem scanFlat_sound : ∀ (r mid : List Char), scanFlat r = some mid →
    NoBraces mid ∧ ∃ post, r = mid ++ '\x7d' :: post := by
  intro r
  induction r with
  | nil => intro mid h; simp [scanFlat] at h
  | cons c rest ih =>
    intro mid h
    by_cases hc : c = '\x7d'
    · subst hc
      simp [scanFlat] at h
      subst h
      exact ⟨fun c hc => absurd hc (List.not_mem_nil c), rest, rfl⟩
    · by_cases hb : c = '\x7b'
      · subst hb
        simp [scanFlat] at h
      · simp [scanFlat, hc, hb] at h
        obtain ⟨mid0, hm0, hmid⟩ := h
        obtain ⟨hnb, post, hpost⟩ := ih mid0 hm0
        refine ⟨?_, post, ?_⟩
        · intro x hx
          rw [← hmid] at hx
          rcases List.mem_cons.mp hx with hx | hx
          · exact ⟨hx ▸ hb, hx ▸ hc⟩
          · exact hnb x hx
        · rw [← hmid, hpost]; rfl

/-- Completeness of the closing-brace scan: a brace-free span followed by a
closing brace always scans back to that span. -/
theorem scanFlat_complete : ∀ (mid post : List Char), NoBraces mid →
    scanFlat (mid ++ '\x7d' :: post) = some mid := by
  intro mid
  induction mid with
  | nil => intro post _; simp [scanFlat]
  | cons c mid ih =>
    intro post hnb
    have hc := hnb c (List.mem_cons_self c mid)
    have hrec := ih post (fun x hx => hnb x (List.mem_cons_of_mem c hx))
    simp only [List.cons_append, scanFlat]
    rw [if_neg hc.2, if_neg hc.1]
    simp [hrec]

/-- The regex search finds nothing exactly when no flat brace span exists. -/
theorem findJson_none_iff : ∀ (l : List Char), findJson l = none ↔ ¬ HasFlat l := by
  intro l
  induction l with
  | nil =>
    simp only [findJson, true_iff]
    rintro ⟨pre, mid, post, hnb, h⟩
    exact List.cons_ne_nil _ _ (List.append_eq_nil.mp h.symm).2
  | cons c rest ih =>
    by_cases hc : c = '\x7b'
    · subst hc
      rcases hs : scanFlat rest with _ | mid
      · simp only [findJson, hs, if_true, ite_self, eq_self_iff_true]
        rw [ih]
        constructor
        · rintro hn ⟨pre, mid, post, hnb, h⟩
          cases pre with
          | nil =>
            simp only [List.nil_append, List.cons.injEq] at h
            rw [h.2, scanFlat_complete mid post hnb] at hs
            exact Option.noConfusion hs
          | cons p pre =>
            simp only [List.cons_append, List.cons.injEq] at h
            exact hn ⟨pre, mid, post, hnb, h.2⟩
        · intro hn hf
          obtain ⟨pre, mid, post, hnb, h⟩ := hf
          exact hn ⟨'\x7b' :: pre, mid, post, hnb, by rw [h]; rfl⟩
      · simp only [findJson, hs, if_true, ite_self, eq_self_iff_true]
        constructor
        · intro h; exact Option.noConfusion h
        · intro hn
          exfalso
          obtain ⟨hnb, post, hpost⟩ := scanFlat_sound rest mid hs
          exact hn ⟨[], mid, post, hnb, by rw [hpost]; rfl⟩
    · simp only [findJson, if_neg hc]
      rw [ih]
      constructor
      · rintro hn ⟨pre, mid, post, hnb, h⟩
        cases pre with
        | nil =>
          simp only [List.nil_append, List.cons.injEq] at h
          exact hc h.1
        | cons p pre =>
          simp only [List.cons_append, List.cons.injEq] at h
          exact hn ⟨pre, mid, post, hnb, h.2⟩
      · intro hn hf
        obtain ⟨pre, mid, post, hnb, h⟩ := hf
        exact hn ⟨c :: pre, mid, post, hnb, by rw [h]; rfl⟩

/-- A successful regex search returns the leftmost flat brace span, braces
included, together with its decomposition of the input. -/
theorem findJson_some_spec : ∀ (l s : List Char), findJson l = some s →
    ∃ pre mid post, NoBraces mid ∧ l = pre ++ '\x7b' :: (mid ++ '\x7d' :: post) ∧
      s = '\x7b' :: (mid ++ ['\x7d']) ∧
      ∀ pre2 mid2 post2, NoBraces mid2 →
        l = pre2 ++ '\x7b' :: (mid2 ++ '\x7d' :: post2) → pre.length ≤ pre2.length := by
  intro l
  induction l with
  | nil => intro s h; simp [findJson] at h
  | cons c rest ih =>
    intro s h
    by_cases hc : c = '\x7b'
    · subst hc
      rcases hs : scanFlat rest with _ | mid
      · simp only [findJson, hs, if_true, ite_self, eq_self_iff_true] at h
        obtain ⟨pre, mid, post, hnb, hdec, hspan, hmin⟩ := ih s h
        refine ⟨'\x7b' :: pre, mid, post, hnb, by rw [hdec]; rfl, hspan, ?_⟩
        intro pre2 mid2 post2 hnb2 hdec2
        cases pre2 with
        | nil =>
          simp only [List.nil_append, List.cons.injEq] at hdec2
          rw [hdec2.2, scanFlat_complete mid2 post2 hnb2] at hs
          exact Option.noConfusion hs
        | cons p pre2 =>
          simp only [List.cons_append, List.cons.injEq] at hdec2
          simpa using Nat.succ_le_succ (hmin pre2 mid2 post2 hnb2 hdec2.2)
      · simp only [findJson, hs, if_true, ite_self, eq_self_iff_true] at h
        obtain ⟨hnb, post, hpost⟩ := scanFlat_sound rest mid hs
        injection h with h
        refine ⟨[], mid, post, hnb, by rw [hpost]; rfl, h.symm, ?_⟩
        intro pre2 _ _ _ _
        exact Nat.zero_le _
    · simp only [findJson, if_neg hc] at h
      obtain ⟨pre, mid, post, hnb, hdec, hspan, hmin⟩ := ih s h
      refine ⟨c :: pre, mid, post, hnb, by rw [hdec]; rfl, hspan, ?_⟩
      intro pre2 mid2 post2 hnb2 hdec2
      cases pre2 with
      | nil =>
        simp only [List.nil_append, List.cons.injEq] at hdec2
        exact absurd hdec2.1 hc
      | cons p pre2 =>
        simp only [List.cons_append, List.cons.injEq] at hdec2
        simpa using Nat.succ_le_succ (hmin pre2 mid2 post2 hnb2 hdec2.2)



/-- Float coercion of a JSON value only ever succeeds or raises `ValueError`
or `TypeError`. -/
theorem pyFloat_cases (v : JVal) :
    (∃ q, pyFloat v = Except.ok q) ∨ pyFloat v = Except.error PyExc.valueError ∨
      pyFloat v = Except.error PyExc.typeError := by
  cases v with
  | jnull => right; right; rfl
  | jbool b => left; exact ⟨if b then 1 else 0, rfl⟩
  | jnum q => left; exact ⟨q, rfl⟩
  | jstr s =>
    cases hf : floatOfString s with
    | none => right; left; simp [pyFloat, hf]
    | some q => left; exact ⟨q, by simp [pyFloat, hf]⟩
  | jarr xs => right; right; rfl
  | jobj kvs => right; right; rfl

/-- Confidence coercion only ever succeeds or raises `ValueError` or
`TypeError`. -/
theorem confCoerce_cases (kvs : List (String × JVal)) :
    (∃ q, confCoerce kvs = Except.ok q) ∨ confCoerce kvs = Except.error PyExc.valueError ∨
      confCoerce kvs = Except.error PyExc.typeError := by
  unfold confCoerce
  cases jget kvs "confidence" with
  | none => left; exact ⟨mkRat 1 2, rfl⟩
  | some v => exact pyFloat_cases v

/-- Rewriting of `_parse_response` after a successful extraction and load: the
result is the dispatch, with `JSONDecodeError`/`ValueError` recovered into the
fallback. -/
theorem parseResponse_of_extract (raw : String) (cx cy : Int) (s : List Char)
    (kvs : List (String × JVal))
    (hf : findJson raw.data = some s)
    (hl : jsonLoads (String.mk s) = Except.ok (JVal.jobj kvs)) :
    parseResponse raw cx cy =
      match dispatchObj kvs cx cy with
      | Except.ok r => Except.ok r
      | Except.error PyExc.jsonDecodeError => Except.ok (fallbackResponse cx cy)
      | Except.error PyExc.valueError => Except.ok (fallbackResponse cx cy)
      | Except.error e => Except.error e := by
  unfold parseResponse parseResponseInner parseExtracted
  rw [hf]
  simp only [hl]

/-- A successful dispatch produces a click, a text, or exactly the fallback
response. -/
theorem dispatchObj_ok (kvs : List (String × JVal)) (cx cy : Int) (r : PredictionResponse)
    (h : dispatchObj kvs cx cy = Except.ok r) :
    r.action_type = "click" ∨ r.action_type = "text" ∨ r = fallbackResponse cx cy := by
  unfold dispatchObj at h
  rcases hc : confCoerce kvs with e | conf
  · simp [hc] at h
  · simp only [hc] at h
    split_ifs at h with h1 h2
    · rcases hx : coordCoerce kvs "x" cx with e | xv
      · simp [hx] at h
      · simp only [hx] at h
        rcases hy : coordCoerce kvs "y" cy with e | yv
        · simp [hy] at h
        · simp only [hy, Except.ok.injEq] at h
          left
          rw [← h]
    · right; left
      simp only [Except.ok.injEq] at h
      rw [← h]
    · right; right
      simp only [Except.ok.injEq] at h
      rw [← h]
      rfl

/-- A successful run of the whole parser produces a click, a text, or exactly
the fallback response. -/
theorem parseResponse_ok (raw : String) (cx cy : Int) (r : PredictionResponse)
    (h : parseResponse raw cx cy = Except.ok r) :
    r.action_type = "click" ∨ r.action_type = "text" ∨ r = fallbackResponse cx cy := by
  unfold parseResponse at h
  rcases hi : parseResponseInner raw cx cy with e | r0
  · rcases e <;> simp [hi] at h
    · exact Or.inr (Or.inr h.symm)
    · exact Or.inr (Or.inr h.symm)
  · simp only [hi, Except.ok.injEq] at h
    subst h
    unfold parseResponseInner at hi
    rcases hf : findJson raw.data with _ | s
    · simp [hf] at hi
    · simp only [hf] at hi
      unfold parseExtracted at hi
      rcases hl : jsonLoads (String.mk s) with e | v
      · simp [hl] at hi
      · simp only [hl] at hi
        cases v with
        | jobj kvs => exact dispatchObj_ok kvs cx cy r0 hi
        | jnull => simp at hi
        | jbool b => simp at hi
        | jnum q => simp at hi
        | jstr s2 => simp at hi
        | jarr xs => simp at hi

/-- The real pipeline either returns the fallback response or the successful
parse of the generated output. -/
theorem realPredict_cases (env : Env) (fs : List String) (img : List UInt8)
    (history : List String) (cx cy : Int) :
    (realPredict env fs img history cx cy).1 = fallbackResponse cx cy ∨
      ∃ out r, env.generate env.tempPath (buildPrompt cx cy history) = Except.ok out ∧
        parseResponse out cx cy = Except.ok r ∧
        (realPredict env fs img history cx cy).1 = r := by
  unfold realPredict
  rcases ho : env.openImage img with e | u
  · left; rfl
  · simp only []
    rcases hs : env.saveImage with e | u2
    · left; rfl
    · rcases hg : env.generate env.tempPath (buildPrompt cx cy history) with e | out
      · left; rfl
      · rcases hp : parseResponse out cx cy with e | r
        · left; simp [hs, hg, hp]
        · right; exact ⟨out, r, rfl, hp, by simp [hs, hg, hp]⟩

/-- The real pipeline always returns the file system it was given: the temp
path is pushed and then erased on every path on which it was created. -/
theorem realPredict_fs (env : Env) (fs : List String) (img : List UInt8)
    (history : List String) (cx cy : Int) :
    (realPredict env fs img history cx cy).2 = fs := by
  unfold realPredict
  rcases ho : env.openImage img with e | u
  · rfl
  · simp only []
    rcases hs : env.saveImage with e | u2
    · simp [List.erase_cons_head]
    · rcases hg : env.generate env.tempPath (buildPrompt cx cy history) with e | out
      · simp [hs, hg, List.erase_cons_head]
      · rcases hp : parseResponse out cx cy with e | r
        · simp [hs, hg, hp, List.erase_cons_head]
        · simp [hs, hg, hp, List.erase_cons_head]



/-- C7: with no usable model (state Unconfigured or LoadFailed, i.e.
`self.model is None`), `predict` is exactly the mock generator applied to the
cursor alone: the environment (prompt builder, backend, parser, file system)
is untouched and the result does not depend on the image bytes or history. -/
theorem predict_mock_dispatch (st : BackendState) (env env2 : Env) (fs : List String)
    (d : MockDraw) (img img2 : List UInt8) (history history2 : List String) (cx cy : Int)
    (h : st.hasModel = false) :
    predict st env fs d img history cx cy = (mockPredict cx cy d, fs) ∧
    predict st env fs d img history cx cy = predict st env2 fs d img2 history2 cx cy := by
  constructor <;> simp [predict, h]

/-- Witness for C7 at the unconfigured state with two different environments,
images and histories. -/
theorem predict_mock_dispatch_witness :
    BackendState.unconfigured.hasModel = false ∧
    predict BackendState.unconfigured (envWith "x") [] d0 [0] ["a"] 5 6 = (mockPredict 5 6 d0, []) ∧
    predict BackendState.unconfigured (envWith "x") [] d0 [0] ["a"] 5 6 =
      predict BackendState.unconfigured envFailImg [] d0 [1] ["b"] 5 6 := by
  have h := predict_mock_dispatch BackendState.unconfigured (envWith "x") envFailImg []
    d0 [0] [1] ["a"] ["b"] 5 6 rfl
  exact ⟨rfl, h.1, h.2⟩

/-- C8: the mock generator returns a click or a text and never the "none"
variant; the click/text choice is drawn from a four-entry list of which
exactly three entries are "click"; a click carries `x = max(0, cursorX + dx)`
and `y = max(0, cursorY + dy)` (hence coordinates at least 0) and its drawn
confidence (in [0.3, 0.95]); a text carries a phrase from the fixed set, the
cursor position, and its drawn confidence (in [0.4, 0.9]). -/
theorem mockPredict_spec (cx cy : Int) (d : MockDraw)
    (hx1 : -150 ≤ d.offsetX) (hx2 : d.offsetX ≤ 150)
    (hy1 : -150 ≤ d.offsetY) (hy2 : d.offsetY ≤ 150)
    (hc1 : mkRat 3 10 ≤ d.clickConf) (hc2 : d.clickConf ≤ mkRat 19 20)
    (ht1 : mkRat 2 5 ≤ d.textConf) (ht2 : d.textConf ≤ mkRat 9 10) :
    ((mockPredict cx cy d).action_type = "click" ∨ (mockPredict cx cy d).action_type = "text") ∧
    (mockPredict cx cy d).action_type ≠ "none" ∧
    ((mockPredict cx cy d).action_type = "click" ↔
      MOCK_ACTION_CHOICES.get d.choice = "click") ∧
    (Finset.univ.filter (fun i : Fin MOCK_ACTION_CHOICES.length =>
        MOCK_ACTION_CHOICES.get i = "click")).card = 3 ∧
    ((mockPredict cx cy d).action_type = "click" →
      (mockPredict cx cy d).x = some (max 0 (cx + d.offsetX)) ∧
      (mockPredict cx cy d).y = some (max 0 (cy + d.offsetY)) ∧
      (∀ v, (mockPredict cx cy d).x = some v → 0 ≤ v) ∧
      (∀ v, (mockPredict cx cy d).y = some v → 0 ≤ v) ∧
      mkRat 3 10 ≤ (mockPredict cx cy d).confidence ∧
      (mockPredict cx cy d).confidence ≤ mkRat 19 20) ∧
    ((mockPredict cx cy d).action_type = "text" →
      (∃ t, (mockPredict cx cy d).text = some t ∧ t ∈ MOCK_TEXT_PREDICTIONS) ∧
      (mockPredict cx cy d).x = some cx ∧ (mockPredict cx cy d).y = some cy ∧
      mkRat 2 5 ≤ (mockPredict cx cy d).confidence ∧
      (mockPredict cx cy d).confidence ≤ mkRat 9 10) := by
  by_cases hm : MOCK_ACTION_CHOICES.get d.choice = "click"
  · unfold mockPredict
    rw [if_pos hm]
    refine ⟨Or.inl rfl, show ("click" : String) ≠ "none" by decide,
      ⟨fun _ => hm, fun _ => rfl⟩, by decide, ?_, ?_⟩
    · intro _
      refine ⟨rfl, rfl, ?_, ?_, hc1, hc2⟩
      · intro v hv
        injection hv with hv
        rw [← hv]
        exact le_max_left 0 _
      · intro v hv
        injection hv with hv
        rw [← hv]
        exact le_max_left 0 _
    · intro hv
      exact absurd (show ("click" : String) = "text" from hv) (by decide)
  · unfold mockPredict
    rw [if_neg hm]
    refine ⟨Or.inr rfl, show ("text" : String) ≠ "none" by decide,
      ⟨fun hv => absurd (show ("text" : String) = "click" from hv) (by decide),
       fun hv => absurd hv hm⟩, by decide, ?_, ?_⟩
    · intro hv
      exact absurd (show ("text" : String) = "click" from hv) (by decide)
    · intro _
      exact ⟨⟨MOCK_TEXT_PREDICTIONS.get d.textIdx, rfl, List.get_mem _ _ _⟩,
        rfl, rfl, ht1, ht2⟩

/-- Witness for C8 at a concrete draw within all the documented ranges. -/
theorem mockPredict_spec_witness :
    ((-150 : Int) ≤ 0 ∧ (0 : Int) ≤ 150 ∧ mkRat 3 10 ≤ mkRat 1 2 ∧ mkRat 1 2 ≤ mkRat 19 20 ∧
      mkRat 2 5 ≤ mkRat 1 2 ∧ mkRat 1 2 ≤ mkRat 9 10) ∧
    ((mockPredict 5 6 d0).action_type = "click" ∨ (mockPredict 5 6 d0).action_type = "text") ∧
    (mockPredict 5 6 d0).action_type ≠ "none" := by
  have h := mockPredict_spec 5 6 d0 (by decide) (by decide) (by decide) (by decide)
    (by decide) (by decide) (by decide) (by decide)
  exact ⟨⟨by decide, by decide, by decide, by decide, by decide, by decide⟩, h.1, h.2.1⟩

/-- C9: whatever the backend state and whatever the outcome of each stage, a
call to `predict` hands back the file system it was given, so the uniquely
named temp screenshot file of the request does not exist afterwards. -/
theorem predict_temp_file_removed (st : BackendState) (env : Env) (fs : List String)
    (d : MockDraw) (img : List UInt8) (history : List String) (cx cy : Int)
    (hfresh : env.tempPath ∉ fs) :
    (predict st env fs d img history cx cy).2 = fs ∧
    env.tempPath ∉ (predict st env fs d img history cx cy).2 := by
  have h2 : (predict st env fs d img history cx cy).2 = fs := by
    unfold predict
    by_cases h : st.hasModel <;> simp [h, realPredict_fs]
  exact ⟨h2, by rw [h2]; exact hfresh⟩

/-- Witness for C9 on the real path with an empty starting file system. -/
theorem predict_temp_file_removed_witness :
    (envWith "no json").tempPath ∉ ([] : List String) ∧
    (predict BackendState.ready (envWith "no json") [] d0 [] [] 1 2).2 = [] ∧
    (envWith "no json").tempPath ∉ (predict BackendState.ready (envWith "no json") [] d0 [] [] 1 2).2 := by
  have h := predict_temp_file_removed BackendState.ready (envWith "no json") [] d0 [] [] 1 2
    (by simp)
  exact ⟨by simp, h.1, h.2⟩



/-- C1: `predict` is a total function (the embedding returns a value for every
environment, so no exception reaches the caller), and every internal failure
of the real pipeline — image decode, image encode, the generation call, or an
exception escaping the parser — produces exactly the fallback response, whose
variant is "none" with confidence 0.0; the only other real-path outcome is a
successfully parsed response, and the mock path returns the mock result. -/
theorem predict_failure_policy (st : BackendState) (env : Env) (fs : List String)
    (d : MockDraw) (img : List UInt8) (history : List String) (cx cy : Int) :
    (st.hasModel = false → (predict st env fs d img history cx cy).1 = mockPredict cx cy d) ∧
    (st.hasModel = true →
      ((predict st env fs d img history cx cy).1 = fallbackResponse cx cy ∨
        ∃ out r, env.generate env.tempPath (buildPrompt cx cy history) = Except.ok out ∧
          parseResponse out cx cy = Except.ok r ∧
          (predict st env fs d img history cx cy).1 = r) ∧
      (∀ e, env.openImage img = Except.error e →
        (predict st env fs d img history cx cy).1 = fallbackResponse cx cy) ∧
      (∀ e, env.saveImage = Except.error e →
        (predict st env fs d img history cx cy).1 = fallbackResponse cx cy) ∧
      (∀ e, env.generate env.tempPath (buildPrompt cx cy history) = Except.error e →
        (predict st env fs d img history cx cy).1 = fallbackResponse cx cy) ∧
      (∀ out e, env.generate env.tempPath (buildPrompt cx cy history) = Except.ok out →
        parseResponse out cx cy = Except.error e →
        (predict st env fs d img history cx cy).1 = fallbackResponse cx cy)) ∧
    (fallbackResponse cx cy).action_type = "none" ∧
    (fallbackResponse cx cy).confidence = 0 := by
  refine ⟨fun hm => by simp [predict, hm], fun hm => ?_, rfl, rfl⟩
  simp only [predict, hm, if_true]
  refine ⟨realPredict_cases env fs img history cx cy, ?_, ?_, ?_, ?_⟩
  · intro e he
    unfold realPredict
    rw [he]
  · intro e he
    unfold realPredict
    rcases ho : env.openImage img with e2 | u
    · rfl
    · simp [he]
  · intro e he
    unfold realPredict
    rcases ho : env.openImage img with e2 | u
    · rfl
    · rcases hs : env.saveImage with e2 | u2
      · simp
      · simp [he]
  · intro out e hg hp
    unfold realPredict
    rcases ho : env.openImage img with e2 | u
    · rfl
    · rcases hs : env.saveImage with e2 | u2
      · simp
      · rcases hg2 : env.generate env.tempPath (buildPrompt cx cy history) with e2 | out2
        · simp
        · rw [hg2] at hg
          injection hg with hg
          subst hg
          simp [hp]

/-- Witness for C1: an image-decode failure on the real path degrades to the
fallback response, and the unconfigured state takes the mock path. -/
theorem predict_failure_policy_witness :
    (predict BackendState.ready envFailImg [] d0 [] [] 1 2).1 = fallbackResponse 1 2 ∧
    (predict BackendState.unconfigured envFailImg [] d0 [] [] 1 2).1 = mockPredict 1 2 d0 := by
  refine ⟨((predict_failure_policy BackendState.ready envFailImg [] d0 [] [] 1 2).2.1
    rfl).2.1 PyExc.imageError rfl, ?_⟩
  exact (predict_failure_policy BackendState.unconfigured envFailImg [] d0 [] [] 1 2).1 rfl

/-- C2 (amended): `predict` always returns one of the "click", "text", "none"
variants, and the "none" variant always carries confidence exactly 0.0; the
[0,1] bound on confidence holds on the mock path (given in-range draws), but
on the real path the parsed confidence is passed through without clamping. -/
theorem predict_variant_confidence (st : BackendState) (env : Env) (fs : List String)
    (d : MockDraw) (img : List UInt8) (history : List String) (cx cy : Int)
    (hc1 : mkRat 3 10 ≤ d.clickConf) (hc2 : d.clickConf ≤ mkRat 19 20)
    (ht1 : mkRat 2 5 ≤ d.textConf) (ht2 : d.textConf ≤ mkRat 9 10) :
    ((predict st env fs d img history cx cy).1.action_type = "click" ∨
      (predict st env fs d img history cx cy).1.action_type = "text" ∨
      (predict st env fs d img history cx cy).1.action_type = "none") ∧
    ((predict st env fs d img history cx cy).1.action_type = "none" →
      (predict st env fs d img history cx cy).1.confidence = 0) ∧
    (st.hasModel = false →
      0 ≤ (predict st env fs d img history cx cy).1.confidence ∧
      (predict st env fs d img history cx cy).1.confidence ≤ 1) := by
  by_cases hm : st.hasModel
  · simp only [predict, hm, if_true]
    rcases realPredict_cases env fs img history cx cy with h | ⟨out, r, hg, hp, h⟩
    · rw [h]
      exact ⟨Or.inr (Or.inr rfl), fun _ => rfl, fun hmf => absurd hmf (by decide)⟩
    · rw [h]
      have htri := parseResponse_ok out cx cy r hp
      refine ⟨?_, ?_, fun hmf => absurd hmf (by decide)⟩
      · rcases htri with h1 | h1 | h1
        · exact Or.inl h1
        · exact Or.inr (Or.inl h1)
        · exact Or.inr (Or.inr (by rw [h1]; rfl))
      · intro hn
        rcases htri with h1 | h1 | h1
        · rw [h1] at hn; exact absurd hn (by decide)
        · rw [h1] at hn; exact absurd hn (by decide)
        · rw [h1]; rfl
  · have hmf : st.hasModel = false := by simpa using hm
    simp only [predict, hmf, Bool.false_eq_true, if_false]
    by_cases hmc : MOCK_ACTION_CHOICES.get d.choice = "click"
    · unfold mockPredict
      rw [if_pos hmc]
      refine ⟨Or.inl rfl, fun hn => absurd (show ("click" : String) = "none" from hn) (by decide),
        fun _ => ⟨?_, ?_⟩⟩
      · exact le_trans (by decide : (0 : Rat) ≤ mkRat 3 10) hc1
      · exact le_trans hc2 (by decide : mkRat 19 20 ≤ 1)
    · unfold mockPredict
      rw [if_neg hmc]
      refine ⟨Or.inr (Or.inl rfl),
        fun hn => absurd (show ("text" : String) = "none" from hn) (by decide),
        fun _ => ⟨?_, ?_⟩⟩
      · exact le_trans (by decide : (0 : Rat) ≤ mkRat 2 5) ht1
      · exact le_trans ht2 (by decide : mkRat 9 10 ≤ 1)

/-- Witness for C2 at the mock path with in-range draws. -/
theorem predict_variant_confidence_witness :
    (mkRat 3 10 ≤ d0.clickConf ∧ d0.clickConf ≤ mkRat 19 20 ∧
      mkRat 2 5 ≤ d0.textConf ∧ d0.textConf ≤ mkRat 9 10) ∧
    0 ≤ (predict BackendState.unconfigured (envWith "x") [] d0 [] [] 1 2).1.confidence ∧
    (predict BackendState.unconfigured (envWith "x") [] d0 [] [] 1 2).1.confidence ≤ 1 := by
  have h := predict_variant_confidence BackendState.unconfigured (envWith "x") [] d0 [] [] 1 2
    (by decide) (by decide) (by decide) (by decide)
  exact ⟨⟨by decide, by decide, by decide, by decide⟩, (h.2.2 rfl).1, (h.2.2 rfl).2⟩

/-- Counterexample to C2 as stated: a model output whose JSON carries
`confidence: 2.0` yields a Click whose confidence is 2, outside [0,1] — the
pipeline does not clamp the parsed confidence. -/
theorem predict_confidence_above_one_cex :
    (predict BackendState.ready
        (envWith "\x7b\"action_type\":\"click\",\"confidence\":2.0\x7d") [] d0 [] [] 1 2).1 =
      { action_type := "click", x := some 1, y := some 2, text := none, confidence := 2 } ∧
    ¬ ((predict BackendState.ready
        (envWith "\x7b\"action_type\":\"click\",\"confidence\":2.0\x7d") [] d0 [] [] 1 2).1.confidence ≤ 1) := by
  exact ⟨rfl, by decide⟩



/-- C3 (amended): for a click object the parser substitutes the input cursor
for `x`/`y` only when the field is absent; a present but non-int-coercible
value is not defaulted — a string that `int()` rejects raises `ValueError`
(landing in the parser's own fallback, i.e. the "none"/0.0 response), and a
JSON `null` raises `TypeError`, which escapes the parser.  In particular the
object with only `action_type: "click"` yields a Click at the cursor. -/
theorem parse_click_coordinate_handling :
    (∀ (raw : String) (cx cy : Int) (s : List Char) (kvs : List (String × JVal)) (c : Rat),
      findJson raw.data = some s →
      jsonLoads (String.mk s) = Except.ok (JVal.jobj kvs) →
      jget kvs "action_type" = some (JVal.jstr "click") →
      jget kvs "x" = none → jget kvs "y" = none →
      confCoerce kvs = Except.ok c →
      parseResponse raw cx cy =
        Except.ok { action_type := "click", x := some cx, y := some cy, text := none,
                    confidence := c }) ∧
    (∀ (raw : String) (cx cy : Int) (s : List Char) (kvs : List (String × JVal)) (c : Rat)
        (v : JVal),
      findJson raw.data = some s →
      jsonLoads (String.mk s) = Except.ok (JVal.jobj kvs) →
      jget kvs "action_type" = some (JVal.jstr "click") →
      confCoerce kvs = Except.ok c →
      jget kvs "x" = some v → pyInt v = Except.error PyExc.valueError →
      parseResponse raw cx cy = Except.ok (fallbackResponse cx cy)) ∧
    (∀ (raw : String) (cx cy : Int) (s : List Char) (kvs : List (String × JVal)) (c : Rat),
      findJson raw.data = some s →
      jsonLoads (String.mk s) = Except.ok (JVal.jobj kvs) →
      jget kvs "action_type" = some (JVal.jstr "click") →
      confCoerce kvs = Except.ok c →
      jget kvs "x" = some JVal.jnull →
      parseResponse raw cx cy = Except.error PyExc.typeError) ∧
    (∀ cx cy : Int,
      parseResponse "\x7b\"action_type\":\"click\"\x7d" cx cy =
        Except.ok { action_type := "click", x := some cx, y := some cy, text := none,
                    confidence := mkRat 1 2 }) := by
  refine ⟨?_, ?_, ?_, fun cx cy => rfl⟩
  · intro raw cx cy s kvs c hf hl ha hx hy hc
    rw [parseResponse_of_extract raw cx cy s kvs hf hl]
    simp [dispatchObj, coordCoerce, hc, ha, hx, hy, jeqStr]
  · intro raw cx cy s kvs c v hf hl ha hc hx hpx
    rw [parseResponse_of_extract raw cx cy s kvs hf hl]
    simp [dispatchObj, coordCoerce, hc, ha, hx, hpx, jeqStr]
  · intro raw cx cy s kvs c hf hl ha hc hx
    rw [parseResponse_of_extract raw cx cy s kvs hf hl]
    simp [dispatchObj, coordCoerce, hc, ha, hx, jeqStr, pyInt]

/-- Witness for C3: the amended clauses at concrete inputs — defaulting with
the bare click object, the ValueError route with `x: "abc"`, and the
TypeError route with `x: null`. -/
theorem parse_click_coordinate_handling_witness :
    parseResponse "\x7b\"action_type\":\"click\"\x7d" 7 9 =
      Except.ok { action_type := "click", x := some 7, y := some 9, text := none,
                  confidence := mkRat 1 2 } ∧
    parseResponse "\x7b\"action_type\":\"click\",\"x\":\"abc\"\x7d" 7 9 =
      Except.ok (fallbackResponse 7 9) ∧
    parseResponse "\x7b\"action_type\":\"click\",\"x\":null\x7d" 7 9 =
      Except.error PyExc.typeError := by
  refine ⟨parse_click_coordinate_handling.2.2.2 7 9, ?_, ?_⟩
  · exact parse_click_coordinate_handling.2.1
      "\x7b\"action_type\":\"click\",\"x\":\"abc\"\x7d" 7 9
      ("\x7b\"action_type\":\"click\",\"x\":\"abc\"\x7d".data)
      [("action_type", JVal.jstr "click"), ("x", JVal.jstr "abc")] (mkRat 1 2)
      (JVal.jstr "abc") rfl rfl rfl rfl rfl rfl
  · exact parse_click_coordinate_handling.2.2.1
      "\x7b\"action_type\":\"click\",\"x\":null\x7d" 7 9
      ("\x7b\"action_type\":\"click\",\"x\":null\x7d".data)
      [("action_type", JVal.jstr "click"), ("x", JVal.jnull)] (mkRat 1 2)
      rfl rfl rfl rfl rfl

/-- Counterexample to C3 as stated: with `x` present but non-numeric
(`"abc"`), the parser does not substitute the cursor — the whole parse falls
to the ValueError handler and returns the "none"/0.0 fallback, not a Click. -/
theorem parse_click_nonnumeric_x_cex :
    jsonLoads "\x7b\"action_type\":\"click\",\"x\":\"abc\"\x7d" =
      Except.ok (JVal.jobj [("action_type", JVal.jstr "click"), ("x", JVal.jstr "abc")]) ∧
    parseResponse "\x7b\"action_type\":\"click\",\"x\":\"abc\"\x7d" 7 9 =
      Except.ok (fallbackResponse 7 9) ∧
    (fallbackResponse 7 9).action_type = "none" := by
  exact ⟨rfl, rfl, rfl⟩

/-- C4 (amended): the try-body of `_parse_response` is parse-or-fail, but the
`NoJsonFound`/`MalformedJson` failures are converted to the "none"/0.0
fallback inside `_parse_response` itself (its own except clause), not at the
`_real_predict` caller; only exceptions outside those two classes (such as
`TypeError`) escape to the caller. -/
theorem parse_local_recovery (raw : String) (cx cy : Int) :
    (parseResponseInner raw cx cy = Except.error PyExc.valueError →
      parseResponse raw cx cy = Except.ok (fallbackResponse cx cy)) ∧
    (parseResponseInner raw cx cy = Except.error PyExc.jsonDecodeError →
      parseResponse raw cx cy = Except.ok (fallbackResponse cx cy)) ∧
    (∀ r, parseResponseInner raw cx cy = Except.ok r →
      parseResponse raw cx cy = Except.ok r) ∧
    (parseResponseInner raw cx cy = Except.error PyExc.typeError →
      parseResponse raw cx cy = Except.error PyExc.typeError) := by
  refine ⟨fun h => ?_, fun h => ?_, fun r h => ?_, fun h => ?_⟩ <;>
    · unfold parseResponse
      rw [h]

/-- Witness for C4 at the two local-recovery routes and the escape route. -/
theorem parse_local_recovery_witness :
    parseResponse "no json here" 3 4 = Except.ok (fallbackResponse 3 4) ∧
    parseResponse "\x7b\"action_type\": \x7d" 3 4 = Except.ok (fallbackResponse 3 4) ∧
    parseResponse "\x7b\"action_type\":\"click\",\"x\":null\x7d" 3 4 =
      Except.error PyExc.typeError := by
  exact ⟨(parse_local_recovery "no json here" 3 4).1 rfl,
    (parse_local_recovery "\x7b\"action_type\": \x7d" 3 4).2.1 rfl,
    (parse_local_recovery "\x7b\"action_type\":\"click\",\"x\":null\x7d" 3 4).2.2.2 rfl⟩

/-- Counterexample to C4 as stated: on the NoJsonFound input "no json here"
the parser does not fail outward — it converts the failure to the "none"/0.0
fallback itself, so the conversion does not happen at the caller. -/
theorem parse_fallback_inside_parser_cex :
    findJson ("no json here".data) = none ∧
    parseResponseInner "no json here" 3 4 = Except.error PyExc.valueError ∧
    parseResponse "no json here" 3 4 = Except.ok (fallbackResponse 3 4) := by
  exact ⟨rfl, rfl, rfl⟩

/-- C5: the parser scans the raw text for the leftmost brace-delimited span
with no nested braces and parses exactly that span, raising NoJsonFound (the
`ValueError`) when no such span exists; the worked example with surrounding
prose parses to Click at (100, 200) with confidence 0.8. -/
theorem parse_scans_first_flat_span :
    (∀ (raw : String) (cx cy : Int), ¬ HasFlat raw.data →
      parseResponseInner raw cx cy = Except.error PyExc.valueError) ∧
    (∀ (raw : String) (cx cy : Int) (s : List Char), findJson raw.data = some s →
      parseResponseInner raw cx cy = parseExtracted (String.mk s) cx cy ∧
      ∃ pre mid post, NoBraces mid ∧ raw.data = pre ++ '\x7b' :: (mid ++ '\x7d' :: post) ∧
        s = '\x7b' :: (mid ++ ['\x7d']) ∧
        ∀ pre2 mid2 post2, NoBraces mid2 →
          raw.data = pre2 ++ '\x7b' :: (mid2 ++ '\x7d' :: post2) →
          pre.length ≤ pre2.length) ∧
    (∀ cx cy : Int,
      parseResponse
        "Sure! \x7b\"action_type\":\"click\",\"x\":100,\"y\":200,\"confidence\":0.8\x7d thanks"
        cx cy =
      Except.ok { action_type := "click", x := some 100, y := some 200, text := none,
                  confidence := mkRat 4 5 }) := by
  refine ⟨?_, ?_, fun cx cy => rfl⟩
  · intro raw cx cy hnf
    have h : findJson raw.data = none := (findJson_none_iff raw.data).mpr hnf
    unfold parseResponseInner
    rw [h]
  · intro raw cx cy s hf
    constructor
    · unfold parseResponseInner
      rw [hf]
    · exact findJson_some_spec raw.data s hf

/-- Witness for C5: the no-span clause at "no json here" and the worked
example. -/
theorem parse_scans_first_flat_span_witness :
    parseResponseInner "no json here" 0 0 = Except.error PyExc.valueError ∧
    parseResponse
        "Sure! \x7b\"action_type\":\"click\",\"x\":100,\"y\":200,\"confidence\":0.8\x7d thanks"
        0 0 =
      Except.ok { action_type := "click", x := some 100, y := some 200, text := none,
                  confidence := mkRat 4 5 } := by
  refine ⟨parse_scans_first_flat_span.1 "no json here" 0 0 ?_,
    parse_scans_first_flat_span.2.2 0 0⟩
  exact (findJson_none_iff ("no json here".data)).mp rfl

/-- C6 (amended): for an extracted object whose `action_type` is neither
"click" nor "text" the parser produces the "none" response with confidence
forced to 0.0 regardless of the parsed confidence value, provided the
`confidence` field's float coercion does not raise `TypeError`; when that
field is `null` (or a container), the `TypeError` raised by `float()` escapes
the parser instead. -/
theorem parse_unrecognized_gives_none (raw : String) (cx cy : Int) (s : List Char)
    (kvs : List (String × JVal))
    (hf : findJson raw.data = some s)
    (hl : jsonLoads (String.mk s) = Except.ok (JVal.jobj kvs)) :
    (jeqStr ((jget kvs "action_type").getD (JVal.jstr "none")) "click" = false →
      jeqStr ((jget kvs "action_type").getD (JVal.jstr "none")) "text" = false →
      confCoerce kvs ≠ Except.error PyExc.typeError →
      parseResponse raw cx cy = Except.ok (fallbackResponse cx cy)) ∧
    (confCoerce kvs = Except.error PyExc.typeError →
      parseResponse raw cx cy = Except.error PyExc.typeError) := by
  constructor
  · intro h1 h2 hne
    rw [parseResponse_of_extract raw cx cy s kvs hf hl]
    rcases confCoerce_cases kvs with ⟨q, hq⟩ | hq | hq
    · simp [dispatchObj, hq, h1, h2]
      rfl
    · simp [dispatchObj, hq]
    · exact absurd hq hne
  · intro hq
    rw [parseResponse_of_extract raw cx cy s kvs hf hl]
    simp [dispatchObj, hq]

/-- Witness for C6: a "scroll" object with an in-range confidence still maps
to "none"/0.0, and a "scroll" object with a null confidence raises. -/
theorem parse_unrecognized_gives_none_witness :
    parseResponse "\x7b\"action_type\":\"scroll\",\"confidence\":0.9\x7d" 3 4 =
      Except.ok (fallbackResponse 3 4) ∧
    parseResponse "\x7b\"action_type\":\"scroll\",\"confidence\":null\x7d" 3 4 =
      Except.error PyExc.typeError := by
  constructor
  · exact (parse_unrecognized_gives_none
      "\x7b\"action_type\":\"scroll\",\"confidence\":0.9\x7d" 3 4
      ("\x7b\"action_type\":\"scroll\",\"confidence\":0.9\x7d".data)
      [("action_type", JVal.jstr "scroll"), ("confidence", JVal.jnum (mkRat 9 10))]
      rfl rfl).1 rfl rfl (by
        intro h
        exact Except.noConfusion ((show
          confCoerce [("action_type", JVal.jstr "scroll"), ("confidence", JVal.jnum (mkRat 9 10))] =
            Except.ok (mkRat 9 10) from rfl).symm.trans h))
  · exact (parse_unrecognized_gives_none
      "\x7b\"action_type\":\"scroll\",\"confidence\":null\x7d" 3 4
      ("\x7b\"action_type\":\"scroll\",\"confidence\":null\x7d".data)
      [("action_type", JVal.jstr "scroll"), ("confidence", JVal.jnull)]
      rfl rfl).2 rfl

/-- Counterexample to C6 as stated: for `action_type: "scroll"` with
`confidence: null` the parser does not return the "none" variant — the
`float(None)` TypeError escapes `_parse_response`. -/
theorem parse_unrecognized_confidence_null_cex :
    jsonLoads "\x7b\"action_type\":\"scroll\",\"confidence\":null\x7d" =
      Except.ok (JVal.jobj [("action_type", JVal.jstr "scroll"), ("confidence", JVal.jnull)]) ∧
    parseResponse "\x7b\"action_type\":\"scroll\",\"confidence\":null\x7d" 3 4 =
      Except.error PyExc.typeError := by
  exact ⟨rfl, rfl⟩

/-- C10: the parser's local handler catches only `json.JSONDecodeError` and
`ValueError`; `int(null)` in the click branch raises `TypeError`, which
escapes `_parse_response` and is recovered only by `_real_predict`'s
catch-all, which still yields the "none"/0.0 fallback. -/
theorem parse_typeerror_escapes :
    (∀ (raw : String) (cx cy : Int),
      parseResponseInner raw cx cy = Except.error PyExc.typeError →
      parseResponse raw cx cy = Except.error PyExc.typeError) ∧
    parseResponseInner "\x7b\"action_type\":\"click\",\"x\":null\x7d" 3 4 =
      Except.error PyExc.typeError ∧
    parseResponse "\x7b\"action_type\":\"click\",\"x\":null\x7d" 3 4 =
      Except.error PyExc.typeError ∧
    (realPredict (envWith "\x7b\"action_type\":\"click\",\"x\":null\x7d") [] [] [] 3 4).1 =
      fallbackResponse 3 4 ∧
    (fallbackResponse 3 4).confidence = 0 := by
  refine ⟨?_, rfl, rfl, rfl, rfl⟩
  intro raw cx cy h
  unfold parseResponse
  rw [h]

/-- Witness for C10's universal clause at the concrete null-x input. -/
theorem parse_typeerror_escapes_witness :
    parseResponse "\x7b\"action_type\":\"click\",\"x\":null\x7d" 3 4 =
      Except.error PyExc.typeError := by
  exact parse_typeerror_escapes.1 "\x7b\"action_type\":\"click\",\"x\":null\x7d" 3 4 rfl


end ActionPack
